import Mathlib

/-!
Verification of the `qq_avatar_meme` plugin core: the meme-catalog manager
(`src/plugin.py`), the avatar-description store (`src/models.py`) and the
avatar-analysis orchestrator (`src/avatar_analyzer.py`).

The Python code is shallowly embedded: external collaborators (identity
resolution, HTTP, the model registry, the vision model, the persistence
engine) are oracles packaged in an `Env` structure; a raised exception at a
boundary is an `Except.error`; Python falsiness of strings/bytes/options is
made explicit; mutation of the store is explicit state passing over a list
of records.
-/

set_option autoImplicit false

namespace AvatarPlugin

/-! ## Byte lists and Python string helpers -/

/-- Contiguous-substring test used to model Python's `in` operator on
strings: `leadsWith small big` is true when `small` is an initial segment
of `big`. -/
def leadsWith : List Char → List Char → Bool
  | [], _ => true
  | _ :: _, [] => false
  | a :: as, b :: bs => a == b && leadsWith as bs

/-- `containsSub big small` is true when `small` occurs contiguously inside
`big` (Python `small in big` for strings). -/
def containsSub : List Char → List Char → Bool
  | [], small => small.isEmpty
  | c :: rest, small => leadsWith small (c :: rest) || containsSub rest small

/-- String-level wrapper for `containsSub`: Python `needle in haystack`. -/
def strContains (haystack needle : String) : Bool :=
  containsSub haystack.toList needle.toList

/-- Python `str.lower()` (ASCII case mapping, as `Char.toLower`). -/
def pyLower (s : String) : String :=
  ⟨s.toList.map Char.toLower⟩

/-- Drop leading whitespace characters from a character list. -/
def dropLeadingWs : List Char → List Char
  | [] => []
  | c :: cs => if c.isWhitespace then dropLeadingWs cs else c :: cs

/-- Python `str.strip()`: remove leading and trailing whitespace. -/
def pyStrip (s : String) : String :=
  ⟨dropLeadingWs ((dropLeadingWs s.toList.reverse).reverse)⟩

/-- The base64 alphabet, as in RFC 4648, used by `base64.b64encode`. -/
def base64Alphabet : List Char :=
  "ABCDEFGHIJKLMNOPQRSTUVWXYZabcdefghijklmnopqrstuvwxyz0123456789+/".toList

/-- Character for a 6-bit group. -/
def b64char (n : Nat) : Char :=
  base64Alphabet.getD n 'A'

/-- `base64.b64encode` over a list of bytes, producing the encoded
characters with `=` padding. -/
def b64encode : List Nat → List Char
  | [] => []
  | [a] =>
      [b64char (a / 4 % 64), b64char (a % 4 * 16), '=', '=']
  | [a, b] =>
      [b64char (a / 4 % 64), b64char (a % 4 * 16 + b / 16 % 16),
       b64char (b % 16 * 4), '=']
  | a :: b :: c :: rest =>
      b64char (a / 4 % 64) :: b64char (a % 4 * 16 + b / 16 % 16) ::
      b64char (b % 16 * 4 + c / 64 % 4) :: b64char (c % 64) :: b64encode rest

/-- `base64.b64encode(avatar_data).decode()` as a Lean string. -/
def b64str (bytes : List Nat) : String :=
  ⟨b64encode bytes⟩

/-! ## Meme catalog (`src/plugin.py`, `MemeManager`) -/

/-- A meme template as the catalog sees it: a primary `key` and a list of
alias `keywords` (duck-typed attributes of the external template object). -/
structure Meme where
  key : String
  keywords : List String
  deriving Repr, DecidableEq

/-- Python-dict assignment `d[k] = v` on an insertion-ordered association
list: an existing key keeps its original position and gets the new value;
a new key is appended at the end. -/
def dictSet (d : List (String × Meme)) (k : String) (v : Meme) :
    List (String × Meme) :=
  if d.any (fun p => p.1 == k) then
    d.map (fun p => if p.1 == k then (k, v) else p)
  else
    d ++ [(k, v)]

/-- Python-dict lookup `d.get(k)` / `k in d`. -/
def dictGet (d : List (String × Meme)) (k : String) : Option Meme :=
  (d.find? (fun p => p.1 == k)).map (fun p => p.2)

/-- The index built by `MemeManager._load_memes`: for each meme in load
order, `_memes[meme.key] = meme` and then `_memes[keyword.lower()] = meme`
for each alias keyword. -/
def load_index (all_memes : List Meme) : List (String × Meme) :=
  all_memes.foldl
    (fun d meme =>
      (meme.keywords.foldl (fun d2 kw => dictSet d2 (pyLower kw) meme)
        (dictSet d meme.key meme)))
    []

/-- The observable state of `MemeManager`: the keyword index `_memes`, the
template list `_meme_list` and the `is_initialized` flag. -/
structure MemeManagerState where
  memes : List (String × Meme)
  meme_list : List Meme
  is_initialized : Bool
  deriving Repr, DecidableEq

/-- State after a successful `_load_memes` over `all_memes`. -/
def loadedState (all_memes : List Meme) : MemeManagerState :=
  { memes := load_index all_memes
    meme_list := all_memes
    is_initialized := true }

/-- State when the dependency is missing or loading failed: the flag stays
false and the index and list stay empty. -/
def uninitializedState : MemeManagerState :=
  { memes := [], meme_list := [], is_initialized := false }

/-- `MemeManager.find_meme`: returns none when uninitialized; otherwise
lowercases the query, tries an exact index lookup, then scans index keys
for substring containment of the query in iteration order. -/
def find_meme (st : MemeManagerState) (key : String) : Option Meme :=
  if st.is_initialized = false then none
  else
    let key_lower := pyLower key
    match dictGet st.memes key_lower with
    | some m => some m
    | none =>
        (st.memes.find? (fun p => strContains p.1 key_lower)).map
          (fun p => p.2)

/-- `MemeManager.get_all_memes`. -/
def get_all_memes (st : MemeManagerState) : List Meme :=
  if st.is_initialized then st.meme_list else []

/-- `MemeManager.get_random_meme`; `choice` stands for `random.choice`,
which is only consulted on a non-empty list of an initialized catalog. -/
def get_random_meme (st : MemeManagerState) (choice : List Meme → Meme) :
    Option Meme :=
  if st.is_initialized = false then none
  else if st.meme_list.isEmpty then none
  else some (choice st.meme_list)

/-! ## Persistent store (`src/models.py`) -/

/-- A row of the `avatar_descriptions` table. -/
structure AvatarRecord where
  person_id : String
  platform : String
  user_id : String
  head_description : Option String
  analyzed_at : Option Nat
  avatar_url : Option String
  deriving Repr, DecidableEq

/-- `AvatarDescription.get_or_none(AvatarDescription.person_id == pid)`:
first record matching the person id. -/
def get_or_none (db : List AvatarRecord) (pid : String) :
    Option AvatarRecord :=
  db.find? (fun r => r.person_id == pid)

namespace Models

/-- `models.get_avatar_description`: the head description of the record for
`person_id`, none when absent. -/
def get_avatar_description (db : List AvatarRecord) (person_id : String) :
    Option String :=
  match get_or_none db person_id with
  | some r => r.head_description
  | none => none

/-- The update branch of `models.set_avatar_description`: set the new
description, refresh `analyzed_at`, and overwrite `avatar_url` only when
the argument is truthy. -/
def updateRecord (now : Nat) (description : String)
    (avatar_url : Option String) (r : AvatarRecord) : AvatarRecord :=
  { r with
    head_description := some description
    analyzed_at := some now
    avatar_url :=
      match avatar_url with
      | some u => if u.isEmpty then r.avatar_url else some u
      | none => r.avatar_url }

/-- `models.set_avatar_description` at time `now`: update-in-place when a
record for `person_id` exists, otherwise create a new record; returns the
success flag together with the new table state. -/
def set_avatar_description (now : Nat) (db : List AvatarRecord)
    (person_id platform user_id description : String)
    (avatar_url : Option String) : Bool × List AvatarRecord :=
  match get_or_none db person_id with
  | some _ =>
      (true, db.map (fun r =>
        if r.person_id == person_id then
          updateRecord now description avatar_url r
        else r))
  | none =>
      (true, db ++ [{ person_id := person_id, platform := platform,
                      user_id := user_id,
                      head_description := some description,
                      analyzed_at := some now,
                      avatar_url := avatar_url }])

end Models

/-- Number of rows for a given person id. -/
def countPid (db : List AvatarRecord) (pid : String) : Nat :=
  (db.filter (fun r => r.person_id == pid)).length

/-! ## Avatar analysis orchestrator (`src/avatar_analyzer.py`)

The orchestrator's collaborators are oracles in `Env`.  A boundary call
that may raise a Python exception returns `Except String α`, the error
carrying the exception text; calls whose Python implementation catches all
its own exceptions (the `models.py` store functions) appear total. -/

/-- External collaborators of `AvatarAnalyzer`. -/
structure Env where
  /-- `person_api.get_person_id(platform, user_id)`; may raise; an empty
  string is Python-falsy ("no id"). -/
  get_person_id : String → String → Except String String
  /-- `models.get_avatar_description(person_id)`; catches internally, so
  it is total. -/
  get_avatar_description : String → Option String
  /-- `models.set_avatar_description(person_id, platform, user_id,
  description)`; catches internally and returns a success flag. -/
  set_avatar_description : String → String → String → String → Bool
  /-- One `aiohttp` GET of a URL, yielding status and body bytes, or a
  raised network fault. -/
  http_get : String → Except String (Nat × List Nat)
  /-- `llm_api.get_available_models().get("vision_general")`: the vision
  model handle when configured; the call may raise. -/
  get_available_models : Except String (Option String)
  /-- `LLMRequest(...).generate_response_for_image(prompt, image_base64,
  image_format)`: the response text (none models a Python-`None` reply);
  may raise. -/
  generate_response_for_image :
    String → String → String → Except String (Option String)

/-- Counts of boundary invocations made during one orchestrator call:
`_fetch_avatar` calls, `_analyze_avatar` calls, and
`set_avatar_description` store writes. -/
structure CallLog where
  fetch_calls : Nat
  analyze_calls : Nat
  store_write_calls : Nat
  deriving Repr, DecidableEq

/-- The default analysis prompt set in `AvatarAnalyzer.__init__`. -/
def default_prompt : String :=
  "这是一个用户的QQ头像，请根据图片内容分析并描述：\n" ++
  "1. 如果是真人照片，描述其大致特征和风格\n" ++
  "2. 如果是动漫/卡通形象，描述角色特点\n" ++
  "3. 如果是风景/物品，描述图片主题\n" ++
  "请用简洁的语言（50字内）总结这个头像给人的印象。"

/-- `custom_prompt or self.default_prompt` (Python falsy-or). -/
def promptOf (custom_prompt : Option String) : String :=
  match custom_prompt with
  | some p => if p.isEmpty then default_prompt else p
  | none => default_prompt

/-- The fixed fallback description of `_analyze_avatar`. -/
def fallback_description : String := "使用默认头像或无法分析的头像图片"

/-- Failure message of step 2 of `analyze_and_store` (avatar fetch). -/
def fetch_fail_msg : String := "无法获取用户头像"

/-- Failure message of step 3 of `analyze_and_store` (empty analysis). -/
def analyze_fail_msg : String := "头像分析失败"

/-- Failure message of step 4 of `analyze_and_store` (store). -/
def store_fail_msg : String := "存储描述失败"

/-- The QQ avatar endpoint URL built in `_fetch_avatar`. -/
def avatar_url_for (user_id : String) : String :=
  "http://q.qlogo.cn/headimg_dl?dst_uin=" ++ user_id ++
  "&spec=640&img_type=jpg"

/-- `AvatarAnalyzer._get_existing_description`: resolve the person id
(exception or falsy id gives none) and read the cached description. -/
def get_existing_description (env : Env) (user_id platform : String) :
    Option String :=
  match env.get_person_id platform user_id with
  | Except.error _ => none
  | Except.ok person_id =>
      if person_id.isEmpty then none
      else env.get_avatar_description person_id

/-- `AvatarAnalyzer._fetch_avatar`: none for `discord`, an HTTP GET for
`qq` (bytes on status 200, none otherwise, none on a raised fault), none
for any other platform. -/
def fetch_avatar (env : Env) (user_id platform : String) :
    Option (List Nat) :=
  if platform = "discord" then none
  else if platform = "qq" then
    match env.http_get (avatar_url_for user_id) with
    | Except.ok (status, body) => if status = 200 then some body else none
    | Except.error _ => none
  else none

/-- `AvatarAnalyzer._analyze_avatar`: base64-encode the bytes, pick the
prompt, and call the vision model; an unconfigured model, a raised fault,
or a falsy response give the fixed fallback; a truthy response is
returned stripped. -/
def analyze_avatar (env : Env) (avatar_data : List Nat)
    (custom_prompt : Option String) : String :=
  let image_base64 := b64str avatar_data
  let prompt := promptOf custom_prompt
  match env.get_available_models with
  | Except.error _ => fallback_description
  | Except.ok none => fallback_description
  | Except.ok (some _vision_model) =>
      match env.generate_response_for_image prompt image_base64 "jpeg" with
      | Except.error _ => fallback_description
      | Except.ok none => fallback_description
      | Except.ok (some response) =>
          if response.isEmpty then fallback_description
          else pyStrip response

/-- `AvatarAnalyzer._store_description`: resolve the person id (exception
or falsy id gives false), then call `set_avatar_description` and return
true regardless of its result.  The second component counts store
writes actually issued. -/
def store_description (env : Env) (user_id platform description : String) :
    Bool × Nat :=
  match env.get_person_id platform user_id with
  | Except.error _ => (false, 0)
  | Except.ok person_id =>
      if person_id.isEmpty then (false, 0)
      else
        let _success :=
          env.set_avatar_description person_id platform user_id description
        (true, 1)

/-- Python truthiness filter on an optional string: keeps only a non-empty
string. -/
def truthyStr : Option String → Option String
  | some s => if s.isEmpty then none else some s
  | none => none

/-- Python truthiness filter on optional bytes: keeps only non-empty
bytes. -/
def truthyBytes : Option (List Nat) → Option (List Nat)
  | some bs => if bs.isEmpty then none else some bs
  | none => none

/-- `AvatarAnalyzer.analyze_and_store`: cache check unless `force_update`,
then fetch, analyze, store; returns the result pair together with the
boundary-call log. -/
def analyze_and_store (env : Env) (user_id platform : String)
    (force_update : Bool) (custom_prompt : Option String) :
    (Bool × String) × CallLog :=
  match
    if force_update then none
    else truthyStr (get_existing_description env user_id platform)
  with
  | some existing => ((true, existing), ⟨0, 0, 0⟩)
  | none =>
      match truthyBytes (fetch_avatar env user_id platform) with
      | none => ((false, fetch_fail_msg), ⟨1, 0, 0⟩)
      | some avatar_data =>
          let description := analyze_avatar env avatar_data custom_prompt
          if description.isEmpty then
            ((false, analyze_fail_msg), ⟨1, 1, 0⟩)
          else
            match store_description env user_id platform description with
            | (success, writes) =>
                if success then ((true, description), ⟨1, 1, writes⟩)
                else ((false, store_fail_msg), ⟨1, 1, writes⟩)

/-! ## Concrete test environments -/

/-- Environment with a cached description for person `p1` and a broken
network, exercising the cache-hit path. -/
def envCached : Env where
  get_person_id := fun _ _ => Except.ok "p1"
  get_avatar_description := fun _ => some "a cat avatar"
  set_avatar_description := fun _ _ _ _ => true
  http_get := fun _ => Except.error "network down"
  get_available_models := Except.ok none
  generate_response_for_image := fun _ _ _ => Except.ok none

/-- Environment with no cached description and a failing HTTP layer,
exercising the fetch-failure path. -/
def envFetchFail : Env where
  get_person_id := fun _ _ => Except.ok "p1"
  get_avatar_description := fun _ => none
  set_avatar_description := fun _ _ _ _ => true
  http_get := fun _ => Except.error "connection refused"
  get_available_models := Except.ok none
  generate_response_for_image := fun _ _ _ => Except.ok none

/-- Environment with no `vision_general` model configured. -/
def envNoVision : Env where
  get_person_id := fun _ _ => Except.ok "p1"
  get_avatar_description := fun _ => none
  set_avatar_description := fun _ _ _ _ => true
  http_get := fun _ => Except.ok (200, [7])
  get_available_models := Except.ok none
  generate_response_for_image := fun _ _ _ => Except.ok none

/-- Environment whose vision model answers a single space: a Python-truthy
response that strips to the empty string. -/
def envWhitespace : Env where
  get_person_id := fun _ _ => Except.ok "p1"
  get_avatar_description := fun _ => none
  set_avatar_description := fun _ _ _ _ => true
  http_get := fun _ => Except.ok (200, [7])
  get_available_models := Except.ok (some "vision_general")
  generate_response_for_image := fun _ _ _ => Except.ok (some " ")

/-- Environment whose persistence layer reports failure
(`set_avatar_description` returns false) while everything else works. -/
def envStoreFalse : Env where
  get_person_id := fun _ _ => Except.ok "p1"
  get_avatar_description := fun _ => none
  set_avatar_description := fun _ _ _ _ => false
  http_get := fun _ => Except.ok (200, [7])
  get_available_models := Except.ok (some "vision_general")
  generate_response_for_image := fun _ _ _ => Except.ok (some "a cat avatar")

/-! ## Claim theorems -/

/-- C1: for every user whose (platform, user_id) pair resolves to a person
identifier with an existing cached (non-empty) description, calling
`analyze_and_store` with `force_update = false` returns
`(true, existingDescription)` and performs no fetch, no analysis and no
store write (call log `⟨0, 0, 0⟩`). -/
theorem c1_cache_hit_short_circuit (env : Env)
    (user_id platform : String) (custom_prompt : Option String)
    (pid d : String)
    (h1 : env.get_person_id platform user_id = Except.ok pid)
    (h2 : pid.isEmpty = false)
    (h3 : env.get_avatar_description pid = some d)
    (h4 : d.isEmpty = false) :
    analyze_and_store env user_id platform false custom_prompt =
      ((true, d), ⟨0, 0, 0⟩) := by
  unfold analyze_and_store get_existing_description
  rw [h1]
  simp [h2, h3, truthyStr, h4]

theorem c1_witness :
    envCached.get_person_id "qq" "u1" = Except.ok "p1" ∧
    ("p1" : String).isEmpty = false ∧
    envCached.get_avatar_description "p1" = some "a cat avatar" ∧
    ("a cat avatar" : String).isEmpty = false ∧
    analyze_and_store envCached "u1" "qq" false none =
      ((true, "a cat avatar"), ⟨0, 0, 0⟩) :=
  ⟨rfl, rfl, rfl, rfl,
    c1_cache_hit_short_circuit envCached "u1" "qq" none "p1" "a cat avatar"
      rfl rfl rfl rfl⟩

/-- C2: whenever the cache step yields nothing (forced update or cache
miss) and the Fetcher returns none, the Describer and the Store are never
invoked (call log `⟨1, 0, 0⟩`: one fetch, no analysis, no store write) and
the result is `(false, fetch_fail_msg)`, the code's fetch-failure
message "无法获取用户头像" (the spec's "avatar unavailable"). -/
theorem c2_fetch_failure_short_circuit (env : Env)
    (user_id platform : String) (force_update : Bool)
    (custom_prompt : Option String)
    (hcache : (if force_update then none
               else truthyStr (get_existing_description env user_id platform))
              = none)
    (hfetch : fetch_avatar env user_id platform = none) :
    analyze_and_store env user_id platform force_update custom_prompt =
      ((false, fetch_fail_msg), ⟨1, 0, 0⟩) := by
  unfold analyze_and_store
  rw [hcache, hfetch]
  rfl

theorem c2_witness :
    (if false then none
     else truthyStr (get_existing_description envFetchFail "u1" "qq"))
      = none ∧
    fetch_avatar envFetchFail "u1" "qq" = none ∧
    analyze_and_store envFetchFail "u1" "qq" false none =
      ((false, fetch_fail_msg), ⟨1, 0, 0⟩) :=
  ⟨rfl, rfl,
    c2_fetch_failure_short_circuit envFetchFail "u1" "qq" false none rfl rfl⟩

/-- C3: for every input where the vision model is unconfigured, or the
registry or model call raises a fault, or the model returns a falsy
(absent or empty) response, `_analyze_avatar` returns the fixed fallback
string.  The return type `String` of `analyze_avatar` makes "never none
and never a raised fault" hold by construction. -/
theorem c3_describer_fallback (env : Env) (avatar_data : List Nat)
    (custom_prompt : Option String)
    (h : env.get_available_models = Except.ok none ∨
         (∃ e, env.get_available_models = Except.error e) ∨
         (∃ vm, env.get_available_models = Except.ok (some vm) ∧
            (env.generate_response_for_image (promptOf custom_prompt)
                (b64str avatar_data) "jpeg" = Except.ok none ∨
             (∃ e, env.generate_response_for_image (promptOf custom_prompt)
                (b64str avatar_data) "jpeg" = Except.error e) ∨
             env.generate_response_for_image (promptOf custom_prompt)
                (b64str avatar_data) "jpeg" = Except.ok (some "")))) :
    analyze_avatar env avatar_data custom_prompt = fallback_description := by
  unfold analyze_avatar
  rcases h with h | ⟨e, h⟩ | ⟨vm, hm, hg⟩
  · rw [h]
  · rw [h]
  · rcases hg with hg | ⟨e, hg⟩ | hg <;> simp only [hm, hg] <;> rfl

theorem c3_witness :
    envNoVision.get_available_models = Except.ok none ∧
    analyze_avatar envNoVision [] none = fallback_description :=
  ⟨rfl, c3_describer_fallback envNoVision [] none (Or.inl rfl)⟩

/-- C4 counterexample: when the vision model answers a single space — a
Python-truthy response — `_analyze_avatar` strips it to the empty string,
so the Describer does not return a non-empty string and the "analysis
failed" branch of `analyze_and_store` is reached. -/
theorem c4_counterexample :
    analyze_avatar envWhitespace [7] none = "" ∧
    analyze_and_store envWhitespace "u1" "qq" true none =
      ((false, analyze_fail_msg), ⟨1, 1, 0⟩) := by
  constructor <;> decide

/-- C4 amended: `_analyze_avatar` returns the stripped response text on a
truthy response and the fixed fallback otherwise; the result is non-empty
except when the model response is non-empty but consists only of
whitespace, in which case the empty string is returned and the "analysis
failed" branch returning `(false, ...)` in `analyze_and_store` is
reachable. -/
theorem c4_describer_empty_only_on_whitespace (env : Env)
    (avatar_data : List Nat) (custom_prompt : Option String)
    (h : (analyze_avatar env avatar_data custom_prompt).isEmpty = true) :
    ∃ vm r, env.get_available_models = Except.ok (some vm) ∧
      env.generate_response_for_image (promptOf custom_prompt)
        (b64str avatar_data) "jpeg" = Except.ok (some r) ∧
      r.isEmpty = false ∧ (pyStrip r).isEmpty = true := by
  unfold analyze_avatar at h
  rcases hm : env.get_available_models with e | vmo
  · simp only [hm] at h; exact absurd h (by decide)
  · rcases vmo with _ | vm
    · simp only [hm] at h; exact absurd h (by decide)
    · rcases hg : env.generate_response_for_image (promptOf custom_prompt)
        (b64str avatar_data) "jpeg" with e | ro
      · simp only [hm, hg] at h; exact absurd h (by decide)
      · rcases ro with _ | r
        · simp only [hm, hg] at h; exact absurd h (by decide)
        · simp only [hm, hg] at h
          by_cases hr : r.isEmpty = true
          · rw [if_pos hr] at h; exact absurd h (by decide)
          · rw [if_neg hr] at h
            exact ⟨vm, r, rfl, rfl, Bool.eq_false_iff.mpr hr, h⟩

theorem c4_witness :
    (analyze_avatar envWhitespace [7] none).isEmpty = true ∧
    (∃ vm r, envWhitespace.get_available_models = Except.ok (some vm) ∧
      envWhitespace.generate_response_for_image (promptOf none)
        (b64str [7]) "jpeg" = Except.ok (some r) ∧
      r.isEmpty = false ∧ (pyStrip r).isEmpty = true) :=
  ⟨by decide,
    c4_describer_empty_only_on_whitespace envWhitespace [7] none (by decide)⟩

/-- C8: `analyze_and_store` never propagates a raised fault: for every
environment — in particular ones whose boundary calls raise
(`Except.error`) anywhere — the result is an ordinary pair, and every
failure message is one of the orchestrator's own fixed messages, never an
escaping fault. -/
theorem c8_no_fault_propagation (env : Env) (user_id platform : String)
    (force_update : Bool) (custom_prompt : Option String) :
    (analyze_and_store env user_id platform force_update
        custom_prompt).1.1 = true ∨
    (analyze_and_store env user_id platform force_update
        custom_prompt).1.2 = fetch_fail_msg ∨
    (analyze_and_store env user_id platform force_update
        custom_prompt).1.2 = analyze_fail_msg ∨
    (analyze_and_store env user_id platform force_update
        custom_prompt).1.2 = store_fail_msg := by
  unfold analyze_and_store
  rcases hcache : (if force_update then none
      else truthyStr (get_existing_description env user_id platform)) with
      _ | existing
  · rcases hb : truthyBytes (fetch_avatar env user_id platform) with _ | bs
    · simp [hcache, hb]
    · simp only [hcache, hb]
      by_cases hd : (analyze_avatar env bs custom_prompt).isEmpty = true
      · simp [hd]
      · rcases hs : store_description env user_id platform
            (analyze_avatar env bs custom_prompt) with ⟨success, writes⟩
        cases success <;> simp [hd, hs]
  · simp [hcache]

/-- C9: when person-identifier resolution succeeds but the persistence
call reports failure (`set_avatar_description` returns false),
`_store_description` still returns true (it ignores the flag) and
`analyze_and_store` reports `(true, description)` with one store write
issued; and `_store_description` returns false only on a resolution
failure (raised fault or falsy person id). -/
theorem c9_store_result_ignored (env : Env)
    (user_id platform pid : String) (custom_prompt : Option String)
    (bs : List Nat) (desc : String)
    (h1 : fetch_avatar env user_id platform = some bs)
    (h2 : bs.isEmpty = false)
    (h3 : analyze_avatar env bs custom_prompt = desc)
    (h4 : desc.isEmpty = false)
    (h5 : env.get_person_id platform user_id = Except.ok pid)
    (h6 : pid.isEmpty = false)
    (h7 : env.set_avatar_description pid platform user_id desc = false) :
    store_description env user_id platform desc = (true, 1) ∧
    analyze_and_store env user_id platform true custom_prompt =
      ((true, desc), ⟨1, 1, 1⟩) ∧
    (∀ env2 uid2 plat2 desc2,
      (store_description env2 uid2 plat2 desc2).1 = false →
      ∀ p, env2.get_person_id plat2 uid2 = Except.ok p →
        p.isEmpty = true) := by
  have hstore : store_description env user_id platform desc = (true, 1) := by
    unfold store_description
    rw [h5]
    simp [h6]
  refine ⟨hstore, ?_, ?_⟩
  · unfold analyze_and_store
    simp [truthyBytes, h1, h2, h3, h4, hstore]
  · intro env2 uid2 plat2 desc2 hfalse p hp
    unfold store_description at hfalse
    simp only [hp] at hfalse
    by_cases hpe : p.isEmpty = true
    · exact hpe
    · rw [if_neg hpe] at hfalse
      simp at hfalse

theorem c9_witness :
    fetch_avatar envStoreFalse "u1" "qq" = some [7] ∧
    ([7] : List Nat).isEmpty = false ∧
    analyze_avatar envStoreFalse [7] none = "a cat avatar" ∧
    ("a cat avatar" : String).isEmpty = false ∧
    envStoreFalse.get_person_id "qq" "u1" = Except.ok "p1" ∧
    ("p1" : String).isEmpty = false ∧
    envStoreFalse.set_avatar_description "p1" "qq" "u1" "a cat avatar"
      = false ∧
    store_description envStoreFalse "u1" "qq" "a cat avatar" = (true, 1) ∧
    analyze_and_store envStoreFalse "u1" "qq" true none =
      ((true, "a cat avatar"), ⟨1, 1, 1⟩) :=
  ⟨rfl, rfl, by decide, rfl, rfl, rfl, rfl,
    (c9_store_result_ignored envStoreFalse "u1" "qq" "p1" none [7]
      "a cat avatar" rfl rfl (by decide) rfl rfl rfl rfl).1,
    (c9_store_result_ignored envStoreFalse "u1" "qq" "p1" none [7]
      "a cat avatar" rfl rfl (by decide) rfl rfl rfl rfl).2.1⟩

/-- Row counts add over table concatenation. -/
theorem countPid_append (db1 db2 : List AvatarRecord) (pid : String) :
    countPid (db1 ++ db2) pid = countPid db1 pid + countPid db2 pid := by
  unfold countPid
  rw [List.filter_append, List.length_append]

/-- The update pass of the store write touches no person id, so row counts
are unchanged. -/
theorem countPid_map_update (db : List AvatarRecord) (now : Nat)
    (desc : String) (url : Option String) (pid pid2 : String) :
    countPid (db.map (fun r =>
      if r.person_id == pid then Models.updateRecord now desc url r
      else r)) pid2 = countPid db pid2 := by
  unfold countPid
  rw [List.filter_map, List.length_map]
  congr 1
  refine List.filter_congr (fun a _ => ?_)
  by_cases h : (a.person_id == pid) = true
  · rw [Function.comp_apply, if_pos h]
    rfl
  · rw [Function.comp_apply, if_neg h]

/-- C5: the store keeps at most one record per person id: a write for an
absent person id creates exactly one record carrying the fresh timestamp
and description, and a second write for the same id updates that single
record in place — the row count for the id stays 1, the table length is
unchanged, and the timestamp and description are refreshed. -/
theorem c5_upsert_single_record (db : List AvatarRecord) (now now2 : Nat)
    (pid platform user_id desc desc2 : String) (url url2 : Option String)
    (h0 : countPid db pid = 0) :
    let w1 := Models.set_avatar_description now db pid platform user_id
      desc url
    let w2 := Models.set_avatar_description now2 w1.2 pid platform user_id
      desc2 url2
    w1.1 = true ∧ countPid w1.2 pid = 1 ∧
    (∀ r ∈ w1.2, r.person_id = pid →
      r.analyzed_at = some now ∧ r.head_description = some desc) ∧
    w2.1 = true ∧ countPid w2.2 pid = 1 ∧ w2.2.length = w1.2.length ∧
    (∀ r ∈ w2.2, r.person_id = pid →
      r.analyzed_at = some now2 ∧ r.head_description = some desc2) := by
  intro w1 w2
  have hfe : db.filter (fun r => r.person_id == pid) = [] :=
    List.length_eq_zero.mp h0
  have hnotin : ∀ r ∈ db, ¬((r.person_id == pid) = true) := by
    intro r hr
    exact List.filter_eq_nil_iff.mp hfe r hr
  have hfind : db.find? (fun r => r.person_id == pid) = none :=
    List.find?_eq_none.mpr hnotin
  have hw1 : w1 = (true, db ++
      [{ person_id := pid, platform := platform, user_id := user_id,
         head_description := some desc, analyzed_at := some now,
         avatar_url := url }]) := by
    show Models.set_avatar_description now db pid platform user_id desc url
      = _
    unfold Models.set_avatar_description get_or_none
    rw [hfind]
  have hcount1 : countPid w1.2 pid = 1 := by
    rw [hw1]
    show countPid (db ++ [_]) pid = 1
    rw [countPid_append, h0]
    simp [countPid, List.filter]
  have hmem1 : ∀ r ∈ w1.2, r.person_id = pid →
      r.analyzed_at = some now ∧ r.head_description = some desc := by
    rw [hw1]
    intro r hr hrp
    rcases List.mem_append.mp hr with hr | hr
    · have := hnotin r hr
      rw [hrp] at this
      simp at this
    · rw [List.mem_singleton] at hr
      subst hr
      exact ⟨rfl, rfl⟩
  have hfind2 : w1.2.find? (fun r => r.person_id == pid) =
      some { person_id := pid, platform := platform, user_id := user_id,
             head_description := some desc, analyzed_at := some now,
             avatar_url := url } := by
    rw [hw1]
    show (db ++ [_]).find? _ = _
    rw [List.find?_append, hfind]
    simp [List.find?]
  have hw2 : w2 = (true, w1.2.map (fun r =>
      if r.person_id == pid then Models.updateRecord now2 desc2 url2 r
      else r)) := by
    show Models.set_avatar_description now2 w1.2 pid platform user_id
      desc2 url2 = _
    unfold Models.set_avatar_description get_or_none
    rw [hfind2]
  have hcount2 : countPid w2.2 pid = 1 := by
    rw [hw2]
    show countPid (w1.2.map _) pid = 1
    rw [countPid_map_update]
    exact hcount1
  have hlen : w2.2.length = w1.2.length := by
    rw [hw2]
    exact List.length_map _ _
  have hmem2 : ∀ r ∈ w2.2, r.person_id = pid →
      r.analyzed_at = some now2 ∧ r.head_description = some desc2 := by
    rw [hw2]
    intro r hr hrp
    rcases List.mem_map.mp hr with ⟨a, ha, hfa⟩
    by_cases hap : (a.person_id == pid) = true
    · rw [if_pos hap] at hfa
      subst hfa
      exact ⟨rfl, rfl⟩
    · rw [if_neg hap] at hfa
      subst hfa
      rw [hrp] at hap
      simp at hap
  refine ⟨?_, hcount1, hmem1, ?_, hcount2, hlen, hmem2⟩
  · rw [hw1]
  · rw [hw2]

theorem c5_witness :
    countPid ([] : List AvatarRecord) "p1" = 0 ∧
    (let w1 := Models.set_avatar_description 1 [] "p1" "qq" "u1" "d1" none
     let w2 := Models.set_avatar_description 2 w1.2 "p1" "qq" "u1" "d2" none
     w1.1 = true ∧ countPid w1.2 "p1" = 1 ∧
     (∀ r ∈ w1.2, r.person_id = "p1" →
       r.analyzed_at = some 1 ∧ r.head_description = some "d1") ∧
     w2.1 = true ∧ countPid w2.2 "p1" = 1 ∧ w2.2.length = w1.2.length ∧
     (∀ r ∈ w2.2, r.person_id = "p1" →
       r.analyzed_at = some 2 ∧ r.head_description = some "d2")) :=
  ⟨rfl, c5_upsert_single_record [] 1 2 "p1" "qq" "u1" "d1" "d2" none none
    rfl⟩

/-- C6: on an initialized catalog, an exact (case-insensitively lowered)
index hit is always returned by `find_meme`, regardless of any
substring-containment matches elsewhere in the index; and when neither the
exact lookup nor the substring scan matches, `find_meme` returns none. -/
theorem c6_exact_match_precedence (st : MemeManagerState) (key : String)
    (hinit : st.is_initialized = true) :
    (∀ m, dictGet st.memes (pyLower key) = some m →
      find_meme st key = some m) ∧
    (dictGet st.memes (pyLower key) = none →
      st.memes.find? (fun p => strContains p.1 (pyLower key)) = none →
      find_meme st key = none) := by
  constructor
  · intro m hm
    unfold find_meme
    simp [hinit, hm]
  · intro hnone hscan
    unfold find_meme
    simp [hinit, hnone, hscan]

theorem c6_witness :
    (loadedState [⟨"doge", ["dog", "funny_dog"]⟩,
        ⟨"cat_meme", ["cat"]⟩]).is_initialized = true ∧
    dictGet (loadedState [⟨"doge", ["dog", "funny_dog"]⟩,
        ⟨"cat_meme", ["cat"]⟩]).memes (pyLower "dog")
      = some ⟨"doge", ["dog", "funny_dog"]⟩ ∧
    find_meme (loadedState [⟨"doge", ["dog", "funny_dog"]⟩,
        ⟨"cat_meme", ["cat"]⟩]) "dog"
      = some ⟨"doge", ["dog", "funny_dog"]⟩ :=
  ⟨rfl, by decide,
    (c6_exact_match_precedence
      (loadedState [⟨"doge", ["dog", "funny_dog"]⟩, ⟨"cat_meme", ["cat"]⟩])
      "dog" rfl).1 ⟨"doge", ["dog", "funny_dog"]⟩ (by decide)⟩

/-- C7: on an uninitialized catalog every operation degrades without
raising: `find_meme` returns none for every query, `get_all_memes` returns
the empty list, and `get_random_meme` returns none; `get_random_meme`
also returns none on an initialized but empty catalog. -/
theorem c7_uninitialized_degrades (st : MemeManagerState) (key : String)
    (choice : List Meme → Meme)
    (h : st.is_initialized = false) :
    find_meme st key = none ∧
    get_all_memes st = [] ∧
    get_random_meme st choice = none ∧
    (∀ st2 : MemeManagerState, st2.is_initialized = true →
      st2.meme_list = [] → get_random_meme st2 choice = none) := by
  refine ⟨?_, ?_, ?_, ?_⟩
  · unfold find_meme
    simp [h]
  · unfold get_all_memes
    simp [h]
  · unfold get_random_meme
    simp [h]
  · intro st2 h2 hempty
    unfold get_random_meme
    simp [h2, hempty]

theorem c7_witness :
    uninitializedState.is_initialized = false ∧
    find_meme uninitializedState "doge" = none ∧
    get_all_memes uninitializedState = [] ∧
    get_random_meme uninitializedState (fun _ => ⟨"", []⟩) = none ∧
    get_random_meme ⟨[], [], true⟩ (fun _ => ⟨"", []⟩) = none :=
  ⟨rfl,
    (c7_uninitialized_degrades uninitializedState "doge"
      (fun _ => ⟨"", []⟩) rfl).1,
    (c7_uninitialized_degrades uninitializedState "doge"
      (fun _ => ⟨"", []⟩) rfl).2.1,
    (c7_uninitialized_degrades uninitializedState "doge"
      (fun _ => ⟨"", []⟩) rfl).2.2.1,
    (c7_uninitialized_degrades uninitializedState "doge"
      (fun _ => ⟨"", []⟩) rfl).2.2.2 ⟨[], [], true⟩ rfl rfl⟩

theorem toNat_ofNat_valid {n : Nat} (h : n.isValidChar) :
    (Char.ofNat n).toNat = n := by
  rw [Char.ofNat, dif_pos h]
  rfl

theorem toLower_ne_of_isUpper {c : Char} (h : c.isUpper = true) :
    Char.toLower c ≠ c := by
  rw [Char.isUpper, Bool.and_eq_true] at h
  have h1 : (65 : UInt32) ≤ c.val := of_decide_eq_true h.1
  have h2 : c.val ≤ (90 : UInt32) := of_decide_eq_true h.2
  have h1n : 65 ≤ c.toNat := UInt32.le_toNat_of_le (by decide) h1
  have h2n : c.toNat ≤ 90 := UInt32.toNat_le_of_le (by decide) h2
  have hvalid : Nat.isValidChar (c.toNat + 32) := Or.inl (by omega)
  have hlower : Char.toLower c = Char.ofNat (c.toNat + 32) := by
    rw [Char.toLower]
    exact if_pos ⟨h1n, h2n⟩
  intro heq
  have hnne : (Char.ofNat (c.toNat + 32)).toNat = c.toNat := by
    rw [← hlower, heq]
  rw [toNat_ofNat_valid hvalid] at hnne
  omega

theorem map_toLower_eq_self {l : List Char} (h : l.map Char.toLower = l) :
    ∀ c ∈ l, Char.toLower c = c := by
  induction l with
  | nil => intro c hc; cases hc
  | cons a as ih =>
      rw [List.map_cons] at h
      injection h with h1 h2
      intro c hc
      rcases List.mem_cons.mp hc with rfl | hc
      · exact h1
      · exact ih h2 c hc

theorem pyLower_ne_of_any_isUpper {s : String}
    (h : s.toList.any Char.isUpper = true) : pyLower s ≠ s := by
  intro heq
  rcases List.any_eq_true.mp h with ⟨c, hc, hup⟩
  have hmap : s.toList.map Char.toLower = s.toList := by
    have : (pyLower s).toList = s.toList := by rw [heq]
    exact this
  exact toLower_ne_of_isUpper hup (map_toLower_eq_self hmap c hc)

theorem leadsWith_length {small big : List Char}
    (h : leadsWith small big = true) : small.length ≤ big.length := by
  induction small generalizing big with
  | nil => simp
  | cons a as ih =>
      cases big with
      | nil => simp [leadsWith] at h
      | cons b bs =>
          rw [leadsWith, Bool.and_eq_true] at h
          have := ih h.2
          simp only [List.length_cons]
          omega

theorem leadsWith_eq_of_length {small big : List Char}
    (h : leadsWith small big = true) (hl : small.length = big.length) :
    small = big := by
  induction small generalizing big with
  | nil =>
      cases big with
      | nil => rfl
      | cons b bs => simp at hl
  | cons a as ih =>
      cases big with
      | nil => simp [leadsWith] at h
      | cons b bs =>
          rw [leadsWith, Bool.and_eq_true] at h
          have hab : a = b := by simpa using h.1
          have hl2 : as.length = bs.length := by
            simp only [List.length_cons] at hl
            omega
          rw [hab, ih h.2 hl2]

theorem containsSub_length {big small : List Char}
    (h : containsSub big small = true) : small.length ≤ big.length := by
  induction big with
  | nil =>
      cases small with
      | nil => simp
      | cons a as => simp [containsSub, List.isEmpty] at h
  | cons b bs ih =>
      rw [containsSub, Bool.or_eq_true] at h
      rcases h with h | h
      · exact leadsWith_length h
      · have := ih h
        simp only [List.length_cons]
        omega

theorem containsSub_eq_false_of_ne {big small : List Char}
    (hl : small.length = big.length) (hne : small ≠ big) :
    containsSub big small = false := by
  cases hb : containsSub big small
  · rfl
  · exfalso
    cases big with
    | nil =>
        cases small with
        | nil => exact hne rfl
        | cons a as => simp at hl
    | cons b bs =>
        rw [containsSub, Bool.or_eq_true] at hb
        rcases hb with h | h
        · exact hne (leadsWith_eq_of_length h hl)
        · have := containsSub_length h
          rw [List.length_cons] at hl
          omega

theorem mem_dictSet {d : List (String × Meme)} {k : String} {v : Meme}
    {p : String × Meme} (h : p ∈ dictSet d k v) : p.1 = k ∨ p ∈ d := by
  unfold dictSet at h
  by_cases hin : d.any (fun q => q.1 == k) = true
  · rw [if_pos hin] at h
    rcases List.mem_map.mp h with ⟨q, hq, hfq⟩
    by_cases hqk : (q.1 == k) = true
    · rw [if_pos hqk] at hfq
      subst hfq
      exact Or.inl rfl
    · rw [if_neg hqk] at hfq
      subst hfq
      exact Or.inr hq
  · rw [if_neg hin] at h
    rcases List.mem_append.mp h with h | h
    · exact Or.inr h
    · rw [List.mem_singleton] at h
      subst h
      exact Or.inl rfl

theorem mem_keyword_fold {m : Meme} {kws : List String}
    {d : List (String × Meme)} {p : String × Meme}
    (h : p ∈ kws.foldl (fun d2 kw => dictSet d2 (pyLower kw) m) d) :
    p ∈ d ∨ ∃ kw ∈ kws, p.1 = pyLower kw := by
  induction kws generalizing d with
  | nil => exact Or.inl h
  | cons kw kws ih =>
      rw [List.foldl_cons] at h
      rcases ih h with h2 | ⟨kw2, hkw2, hp⟩
      · rcases mem_dictSet h2 with h3 | h3
        · exact Or.inr ⟨kw, List.mem_cons_self _ _, h3⟩
        · exact Or.inl h3
      · exact Or.inr ⟨kw2, List.mem_cons_of_mem _ hkw2, hp⟩

theorem mem_load_index {all : List Meme} {p : String × Meme}
    (h : p ∈ load_index all) :
    (∃ m ∈ all, p.1 = m.key) ∨
    (∃ m ∈ all, ∃ kw ∈ m.keywords, p.1 = pyLower kw) := by
  have haux : ∀ (ms : List Meme) (d : List (String × Meme)),
      p ∈ ms.foldl (fun d0 meme =>
        meme.keywords.foldl (fun d2 kw => dictSet d2 (pyLower kw) meme)
          (dictSet d0 meme.key meme)) d →
      p ∈ d ∨ (∃ m ∈ ms, p.1 = m.key) ∨
        (∃ m ∈ ms, ∃ kw ∈ m.keywords, p.1 = pyLower kw) := by
    intro ms
    induction ms with
    | nil => intro d hd; exact Or.inl hd
    | cons m ms ih =>
        intro d hd
        rw [List.foldl_cons] at hd
        rcases ih _ hd with hd2 | hrest
        · rcases mem_keyword_fold hd2 with hd3 | ⟨kw, hkw, hp⟩
          · rcases mem_dictSet hd3 with hp | hd4
            · exact Or.inr (Or.inl ⟨m, List.mem_cons_self _ _, hp⟩)
            · exact Or.inl hd4
          · exact Or.inr (Or.inr ⟨m, List.mem_cons_self _ _, kw, hkw, hp⟩)
        · rcases hrest with ⟨m2, hm2, hp⟩ | ⟨m2, hm2, kw, hkw, hp⟩
          · exact Or.inr (Or.inl ⟨m2, List.mem_cons_of_mem _ hm2, hp⟩)
          · exact Or.inr
              (Or.inr ⟨m2, List.mem_cons_of_mem _ hm2, kw, hkw, hp⟩)
  unfold load_index at h
  rcases haux all [] h with h | h | h
  · cases h
  · exact Or.inl h
  · exact Or.inr h

/-- C10: the index stores each template's primary key verbatim and alias
keywords lowercased (every index key is some template's verbatim key or a
lowercased alias), while `find_meme` lowercases its query; hence for a
template whose primary key contains an uppercase letter, no casing of that
key matches its primary-key index entry — neither exactly nor by substring
containment — and on a catalog holding only that template (no aliases) the
lookup returns none. -/
theorem c10_uppercase_key_not_matchable (m : Meme) (q : String)
    (hup : m.key.toList.any Char.isUpper = true)
    (hq : pyLower q = pyLower m.key) :
    (∀ all : List Meme, ∀ p ∈ load_index all,
       (∃ m2 ∈ all, p.1 = m2.key) ∨
       (∃ m2 ∈ all, ∃ kw ∈ m2.keywords, p.1 = pyLower kw)) ∧
    pyLower q ≠ m.key ∧
    strContains m.key (pyLower q) = false ∧
    (m.keywords = [] → find_meme (loadedState [m]) q = none) := by
  have hne : pyLower m.key ≠ m.key := pyLower_ne_of_any_isUpper hup
  have hqne : pyLower q ≠ m.key := by rw [hq]; exact hne
  have hlen : (pyLower q).toList.length = m.key.toList.length := by
    rw [hq]
    exact List.length_map _ _
  have hlne : (pyLower q).toList ≠ m.key.toList := by
    intro h
    exact hqne (String.ext h)
  have hcontains : strContains m.key (pyLower q) = false := by
    unfold strContains
    exact containsSub_eq_false_of_ne hlen hlne
  refine ⟨fun all p hp => mem_load_index hp, hqne, hcontains, ?_⟩
  intro hkw
  have hidx : load_index [m] = [(m.key, m)] := by
    simp only [load_index, List.foldl_cons, List.foldl_nil, hkw]
    rfl
  have hbeq : (m.key == pyLower q) = false :=
    beq_eq_false_iff_ne.mpr (Ne.symm hqne)
  unfold find_meme loadedState
  simp [hidx, dictGet, List.find?, hbeq, hcontains]

theorem c10_witness :
    (Meme.mk "Doge" []).key.toList.any Char.isUpper = true ∧
    pyLower "DOGE" = pyLower (Meme.mk "Doge" []).key ∧
    pyLower "DOGE" ≠ (Meme.mk "Doge" []).key ∧
    strContains (Meme.mk "Doge" []).key (pyLower "DOGE") = false ∧
    find_meme (loadedState [Meme.mk "Doge" []]) "DOGE" = none :=
  ⟨by decide, by decide,
    (c10_uppercase_key_not_matchable (Meme.mk "Doge" []) "DOGE"
      (by decide) (by decide)).2.1,
    (c10_uppercase_key_not_matchable (Meme.mk "Doge" []) "DOGE"
      (by decide) (by decide)).2.2.1,
    (c10_uppercase_key_not_matchable (Meme.mk "Doge" []) "DOGE"
      (by decide) (by decide)).2.2.2 rfl⟩

end AvatarPlugin
